import Mathlib

/-!
Verification development for the MusicCRS conversational playlist assistant.

The Lean definitions below are a shallow embedding of the Python sources:
  - playlist_db.py   (catalog search and ranking over the sqlite `tracks` table)
  - playlist_service.py (per-user playlists, mutations, cover refresh)
  - musiccrs.py      (the dispatcher and the pending-disambiguation machine)
  - tools/build_mpd_sqlite.py / playlist_db build helpers (catalog population)

A `List Track` stands for the rows of the sqlite `tracks` table in rowid
order; `track_uri` is the table's PRIMARY KEY.  Python dictionaries are
embedded as insertion-ordered association lists, exceptions as `Except`,
and the optional external services (Spotify, cover renderer) as explicit
function parameters.
-/

namespace MusicCRS

/-- A row of the `tracks` table / the `Track` dataclass of playlist_service.py. -/
structure Track where
  track_uri : String
  artist : String
  title : String
  album : Option String
deriving DecidableEq, Repr

/-- Embeds Python `str.lower()` and sqlite `lower()`, character by character. -/
def pyLower (s : String) : String := ⟨s.data.map Char.toLower⟩

/-- Embeds Python `str.strip()`: drop whitespace from both ends. -/
def pyStrip (s : String) : String :=
  ⟨((s.data.dropWhile Char.isWhitespace).reverse.dropWhile Char.isWhitespace).reverse⟩

/-- Does the character list start with the pattern (first argument)? -/
def beginsWith : List Char → List Char → Bool
  | [], _ => true
  | _ :: _, [] => false
  | p :: ps, c :: cs => p == c && beginsWith ps cs

/-- Embeds Python substring containment (`pat in s`). -/
def hasSub (pat : List Char) : List Char → Bool
  | [] => beginsWith pat []
  | c :: cs => beginsWith pat (c :: cs) || hasSub pat cs

/-- Embeds Python `s.index(pat)`: index of the first occurrence of a substring. -/
def idxOfSub (pat : List Char) : List Char → Option Nat
  | [] => if beginsWith pat [] then some 0 else none
  | c :: cs =>
    if beginsWith pat (c :: cs) then some 0
    else (idxOfSub pat cs).map (· + 1)

/-- Splits a character list at the first occurrence of a character. -/
def splitAtFirst (ch : Char) : List Char → Option (List Char × List Char)
  | [] => none
  | c :: cs =>
    if c == ch then some ([], cs)
    else (splitAtFirst ch cs).map (fun p => (c :: p.1, p.2))

/-- Embeds Python `str.isdigit()` restricted to ASCII digits (the only inputs
the dispatcher ever routes this way). -/
def isDigits (s : String) : Bool := !s.data.isEmpty && s.data.all Char.isDigit

/-- Embeds Python `int(s)` on a digit string. -/
def strToNat (s : String) : Nat := s.data.foldl (fun n c => n * 10 + (c.toNat - 48)) 0

/-- Lookup in an insertion-ordered association list (a Python dict). -/
def alookup {α : Type} (l : List (String × α)) (k : String) : Option α :=
  match l.find? (fun p => p.1 == k) with
  | none => none
  | some p => some p.2

/-- Assignment `d[k] = v` in a Python dict: update the entry in place if the
key is present (keys are unique in a dict, so the first hit is the only one),
otherwise append. -/
def aset {α : Type} : List (String × α) → String → α → List (String × α)
  | [], k, v => [(k, v)]
  | p :: l, k, v => if p.1 == k then (k, v) :: l else p :: aset l k v

/-! ### playlist_db.py: catalog queries -/

/-- Embeds search_by_artist_title: case-insensitive exact match on artist and
title; blank input (after stripping) yields no row. -/
def search_by_artist_title (cat : List Track) (artist title : String) : Option Track :=
  let artist := pyStrip artist
  let title := pyStrip title
  if artist.data.isEmpty || title.data.isEmpty then none
  else cat.find? (fun t => pyLower t.artist == pyLower artist && pyLower t.title == pyLower title)

/-- Embeds get_track_by_uri: the unique row with this primary key. -/
def get_track_by_uri (cat : List Track) (uri : String) : Option Track :=
  cat.find? (fun t => t.track_uri == uri)

/-- Priority column of the search_by_title UNION: 0 for an exact (lowercased)
title match, 1 for a strict-prefix match. -/
def titlePriority (q : String) (t : Track) : Nat :=
  if pyLower t.title == q then 0 else 1

/-- The `lower(title) = ?` selection of search_by_title (q is the lowercased
stripped query). -/
def exactTitleMatch (q : String) (t : Track) : Bool := pyLower t.title == q

/-- The `lower(title) LIKE ? AND lower(title) != ?` selection of search_by_title. -/
def prefixTitleMatch (q : String) (t : Track) : Bool :=
  beginsWith q.data (pyLower t.title).data && pyLower t.title != q

/-- A row matches the title query at all: its lowercased title starts with (or
equals) the query. -/
def titleMatch (q : String) (t : Track) : Bool := beginsWith q.data (pyLower t.title).data

/-- True number of catalog rows matching the (normalized) title query. -/
def matchCount (cat : List Track) (q : String) : Nat := (cat.filter (titleMatch q)).length

/-- Sort key of search_by_title: `ORDER BY priority, length(title)`. -/
def sbtKey (x : Track × Nat) : Lex (Nat × Nat) := toLex (x.2, x.1.title.length)

/-- Comparison used to embed the `ORDER BY` of search_by_title. -/
def sbtLe (x y : Track × Nat) : Prop := sbtKey x ≤ sbtKey y

instance : DecidableRel sbtLe := fun x y => inferInstanceAs (Decidable (sbtKey x ≤ sbtKey y))

instance : IsTotal (Track × Nat) sbtLe := ⟨fun a b => le_total (sbtKey a) (sbtKey b)⟩

instance : IsTrans (Track × Nat) sbtLe := ⟨fun _ _ _ => le_trans⟩

/-- The UNION of the two search_by_title selections with their priority
column: rows whose lowercased title equals the query (priority 0) and rows
whose lowercased title strictly starts with it (priority 1).  The SQL `UNION`
deduplication is a no-op here because the two selections are disjoint and
table rows are distinct by primary key. -/
def sbtAnnotated (cat : List Track) (q : String) : List (Track × Nat) :=
  (cat.filter (exactTitleMatch q)).map (fun t => (t, 0)) ++
    (cat.filter (prefixTitleMatch q)).map (fun t => (t, 1))

/-- Embeds search_by_title (see sbtAnnotated for the UNION of the two
selections): order by priority then title length, truncate to `limit`. -/
def search_by_title (cat : List Track) (title : String) (limit : Nat) : List Track :=
  let q := pyLower (pyStrip title)
  if q.data.isEmpty then []
  else (((sbtAnnotated cat q).insertionSort sbtLe).take limit).map Prod.fst

/-- Embeds get_track_popularity: `SELECT COUNT(*) FROM tracks WHERE track_uri = ?`.
Note this counts rows of the (primary-key deduplicated) `tracks` table. -/
def get_track_popularity (cat : List Track) (track_uri : String) : Nat :=
  (cat.filter (fun t => t.track_uri == track_uri)).length

/-- Embeds `INSERT OR IGNORE INTO tracks`: `track_uri` is the PRIMARY KEY, so a
row whose uri is already present is skipped. -/
def insertOrIgnore (cat : List Track) (t : Track) : List Track :=
  if cat.any (fun r => r.track_uri == t.track_uri) then cat else cat ++ [t]

/-- Embeds the catalog build step (seed_from_sample / build_from_mpd_folder):
every track occurrence of the source corpus is inserted with INSERT OR IGNORE. -/
def buildCatalog (corpus : List Track) : List Track := corpus.foldl insertOrIgnore []

/-- Number of occurrences of an identifier in the source corpus the catalog was
built from (the spec's notion of local occurrence count). -/
def corpusOccurrences (corpus : List Track) (uri : String) : Nat :=
  (corpus.filter (fun t => t.track_uri == uri)).length

/-! ### playlist_db.py: ranked title search

The optional Spotify service is a parameter `spotify : Option (String → String → Nat)`:
`none` embeds `get_spotify_api()` returning `None` (no credentials configured),
`some f` a reachable service whose `get_track_popularity(artist, title)` is `f`.
-/

/-- Descending order on the MPD popularity column, used for
`sorted(results_with_data, key=lambda x: x[4], reverse=True)`. -/
def mpdDesc (x y : Track × Nat) : Prop := y.2 ≤ x.2

instance : DecidableRel mpdDesc := fun x y => inferInstanceAs (Decidable (y.2 ≤ x.2))

instance : IsTotal (Track × Nat) mpdDesc := ⟨fun a b => Nat.le_total b.2 a.2⟩

instance : IsTrans (Track × Nat) mpdDesc := ⟨fun _ _ _ hab hbc => Nat.le_trans hbc hab⟩

/-- Embeds the `spotify_popularity` dict of search_by_title_ranked: query the
service only for the top `MAX_SPOTIFY_CALLS = 5` rows by MPD popularity, cache
only strictly positive results. -/
def spotify_popularity (spotify : Option (String → String → Nat))
    (withData : List (Track × Nat)) : List (String × Nat) :=
  match spotify with
  | none => []
  | some f =>
    ((withData.insertionSort mpdDesc).take 5).foldl
      (fun d x =>
        let pop := f x.1.artist x.1.title
        if 0 < pop then aset d x.1.track_uri pop else d)
      []

/-- Whether the candidate's artist is among the (lowercased) artists already in
the playlist: the primary rank key (0 sorts first). -/
def rank_priority (existing : List String) (t : Track) : Nat :=
  if existing.contains (pyLower t.artist) then 0 else 1

/-- Python string comparison (code-point lexicographic) on the underlying
character lists. -/
def strLt (a b : String) : Prop := a.data < b.data

/-- Python string less-or-equal, code-point lexicographic. -/
def strLe (a b : String) : Prop := a.data ≤ b.data

instance : DecidableRel strLt := fun a b => inferInstanceAs (Decidable (a.data < b.data))

instance : DecidableRel strLe := fun a b => inferInstanceAs (Decidable (a.data ≤ b.data))

/-- Embeds `rank_key`: the tuple `(priority, -popularity, artist.lower(), title)`
compared lexicographically, exactly as Python compares the key tuples (strings
by code points). -/
def rankKey (existing : List String) (x : Track × Nat) :
    Lex (Nat × Lex (Int × Lex (List Char × List Char))) :=
  toLex (rank_priority existing x.1,
    toLex (-(x.2 : Int), toLex ((pyLower x.1.artist).data, x.1.title.data)))

/-- Comparison used to embed `sorted(final_results, key=rank_key)`. -/
def rankLe (existing : List String) (x y : Track × Nat) : Prop :=
  rankKey existing x ≤ rankKey existing y

instance (existing : List String) : DecidableRel (rankLe existing) :=
  fun x y => inferInstanceAs (Decidable (rankKey existing x ≤ rankKey existing y))

instance (existing : List String) : IsTotal (Track × Nat) (rankLe existing) :=
  ⟨fun a b => le_total (rankKey existing a) (rankKey existing b)⟩

instance (existing : List String) : IsTrans (Track × Nat) (rankLe existing) :=
  ⟨fun _ _ _ => le_trans⟩

/-- Embeds the scoring stages of search_by_title_ranked (`results_with_data`
and `final_results`): each search_by_title hit paired with its combined
popularity `10 * mpd_count + spotify_score`. -/
def finalScored (cat : List Track) (spotify : Option (String → String → Nat))
    (title : String) (limit : Nat) : List (Track × Nat) :=
  let results := search_by_title cat title (min (limit * 3) 60)
  let withData := results.map (fun t => (t, get_track_popularity cat t.track_uri))
  withData.map
    (fun x => (x.1, x.2 * 10 + (alookup (spotify_popularity spotify withData) x.1.track_uri).getD 0))

/-- Embeds the `ranked = sorted(final_results, key=rank_key)` stage: a stable
sort by `(priority, -popularity, lowercased artist, title)`. -/
def rankedResults (cat : List Track) (spotify : Option (String → String → Nat))
    (existing_artists : List String) (title : String) (limit : Nat) :
    List (Track × Nat) :=
  (finalScored cat spotify title limit).insertionSort (rankLe (existing_artists.map pyLower))

/-- Embeds search_by_title_ranked: rank the title-only hits and return the
first `limit` tracks. -/
def search_by_title_ranked (cat : List Track) (spotify : Option (String → String → Nat))
    (existing_artists : List String) (title : String) (limit : Nat) : List Track :=
  let results := search_by_title cat title (min (limit * 3) 60)
  if results.isEmpty then []
  else ((rankedResults cat spotify existing_artists title limit).take limit).map Prod.fst

/-! ### playlist_service.py: per-user playlists and mutations

Python exceptions are embedded as `Except PyErr`; because Python mutates the
service objects in place, every operation returns the resulting state next to
the `Except`, so a state change made before a raise persists.  The cover
renderer (`generate_cover` of cover_art.py, an external collaborator) is a
parameter `render`; the middle component of each result lists the renderer
invocations `(user_id, playlist_name)` made by the operation.
-/

/-- The exceptions the embedded code can raise. -/
inductive PyErr where
  | trackNotFound
  | uriNotFound
  | alreadyExists (name : String)
  | notExists (name : String)
  | indexOutOfRange
  | notInPlaylist
  | keyError
  | importGetTrack
  | renderFail (msg : String)
deriving DecidableEq, Repr

/-- The `Playlist` dataclass of playlist_service.py. -/
structure Playlist where
  name : String
  tracks : List Track
  cover_url : Option String
deriving DecidableEq, Repr

/-- The `PlaylistService` state: `_by_user` and `_current`, both Python dicts. -/
structure SState where
  by_user : List (String × List (String × Playlist))
  current : List (String × String)
deriving DecidableEq, Repr

/-- Embeds _ensure_user: lazily create the default playlist for an unseen user. -/
def ensure_user (st : SState) (uid : String) : SState :=
  if (alookup st.by_user uid).isSome then st
  else
    { by_user := st.by_user ++ [(uid, [("default", ⟨"default", [], none⟩)])],
      current := aset st.current uid "default" }

/-- The `self._by_user[user_id][self._current[user_id]]` lookup of
current_playlist, together with the dict key it was found under. -/
def currentEntry (st : SState) (uid : String) : Option (String × Playlist) :=
  match alookup st.current uid with
  | none => none
  | some curr =>
    match alookup st.by_user uid with
    | none => none
    | some pls => (alookup pls curr).map (fun pl => (curr, pl))

/-- Writes one playlist back into the per-user map (in-place mutation of the
Python dict entry). -/
def setPlaylist (st : SState) (uid name : String) (pl : Playlist) : SState :=
  { st with by_user := aset st.by_user uid (aset ((alookup st.by_user uid).getD []) name pl) }

/-- Embeds _refresh_cover: look the playlist up and assign
`pl.cover_url = generate_cover(user_id, pl)`.  There is no exception handler
here: when the renderer raises, the assignment is skipped and the exception
propagates to the caller.  The middle component records the renderer call. -/
def refresh_cover (render : String → Playlist → Except PyErr String) (st : SState)
    (uid name : String) : SState × List (String × String) × Except PyErr Unit :=
  match (alookup st.by_user uid).bind (fun pls => alookup pls name) with
  | none => (st, [], .error .keyError)
  | some pl =>
    match render uid pl with
    | .error e => (st, [(uid, name)], .error e)
    | .ok url => (setPlaylist st uid name { pl with cover_url := some url }, [(uid, name)], .ok ())

/-- Embeds add_by_uri: resolve the uri in the catalog, no-op if an entry with
the same uri is already in the current playlist, otherwise append and refresh
the cover. -/
def add_by_uri (cat : List Track) (render : String → Playlist → Except PyErr String)
    (st : SState) (uid uri : String) :
    SState × List (String × String) × Except PyErr Track :=
  let st := ensure_user st uid
  match get_track_by_uri cat uri with
  | none => (st, [], .error .uriNotFound)
  | some track =>
    match currentEntry st uid with
    | none => (st, [], .error .keyError)
    | some (curr, pl) =>
      if pl.tracks.any (fun x => x.track_uri == uri) then (st, [], .ok track)
      else
        let pl' := { pl with tracks := pl.tracks ++ [track] }
        let st2 := setPlaylist st uid curr pl'
        let (st3, calls, r) := refresh_cover render st2 uid pl.name
        (st3, calls, r.map (fun _ => track))

/-- Embeds clear: empty the named (or current) playlist, then refresh its cover.
Python's `name = name or self._current[user_id]` also falls back to the current
playlist on an empty-string name. -/
def clear (render : String → Playlist → Except PyErr String) (st : SState)
    (uid : String) (name? : Option String) :
    SState × List (String × String) × Except PyErr Unit :=
  let st := ensure_user st uid
  let nameOpt :=
    match name? with
    | some n => if n.data.isEmpty then alookup st.current uid else some n
    | none => alookup st.current uid
  match nameOpt with
  | none => (st, [], .error .keyError)
  | some name =>
    match (alookup st.by_user uid).bind (fun pls => alookup pls name) with
    | none => (st, [], .error .keyError)
    | some pl =>
      let st2 := setPlaylist st uid name { pl with tracks := [] }
      refresh_cover render st2 uid name

/-- Embeds create_playlist: fail if the name exists, otherwise create an empty
playlist, make it current, refresh its cover and return it. -/
def create_playlist (render : String → Playlist → Except PyErr String) (st : SState)
    (uid name : String) :
    SState × List (String × String) × Except PyErr Playlist :=
  let st := ensure_user st uid
  match alookup st.by_user uid with
  | none => (st, [], .error .keyError)
  | some pls =>
    if (alookup pls name).isSome then (st, [], .error (.alreadyExists name))
    else
      let pl : Playlist := ⟨name, [], none⟩
      let st2 : SState :=
        { by_user := aset st.by_user uid (pls ++ [(name, pl)]),
          current := aset st.current uid name }
      let (st3, calls, r) := refresh_cover render st2 uid name
      match r with
      | .error e => (st3, calls, .error e)
      | .ok _ =>
        match (alookup st3.by_user uid).bind (fun p => alookup p name) with
        | some pl2 => (st3, calls, .ok pl2)
        | none => (st3, calls, .error .keyError)

/-- Embeds switch_playlist: fail if the name is absent, otherwise move the
current pointer, refresh the cover and return the playlist. -/
def switch_playlist (render : String → Playlist → Except PyErr String) (st : SState)
    (uid name : String) :
    SState × List (String × String) × Except PyErr Playlist :=
  let st := ensure_user st uid
  match alookup st.by_user uid with
  | none => (st, [], .error .keyError)
  | some pls =>
    if (alookup pls name).isNone then (st, [], .error (.notExists name))
    else
      let st2 : SState := { st with current := aset st.current uid name }
      let (st3, calls, r) := refresh_cover render st2 uid name
      match r with
      | .error e => (st3, calls, .error e)
      | .ok _ =>
        match (alookup st3.by_user uid).bind (fun p => alookup p name) with
        | some pl2 => (st3, calls, .ok pl2)
        | none => (st3, calls, .error .keyError)

/-- Embeds remove: a 1-based index (all-digit identifier) or a track uri;
raises IndexOutOfRange / NotInPlaylist on a miss, refreshes the cover after a
successful removal. -/
def remove (render : String → Playlist → Except PyErr String) (st : SState)
    (uid ident : String) :
    SState × List (String × String) × Except PyErr Track :=
  let st := ensure_user st uid
  match currentEntry st uid with
  | none => (st, [], .error .keyError)
  | some (curr, pl) =>
    if isDigits ident then
      let n := strToNat ident
      if n < 1 || pl.tracks.length < n then (st, [], .error .indexOutOfRange)
      else
        match pl.tracks[n - 1]? with
        | none => (st, [], .error .keyError)
        | some track =>
          let st2 := setPlaylist st uid curr { pl with tracks := pl.tracks.eraseIdx (n - 1) }
          let (st3, calls, r) := refresh_cover render st2 uid pl.name
          (st3, calls, r.map (fun _ => track))
    else
      match pl.tracks.findIdx? (fun tr => tr.track_uri == ident) with
      | none => (st, [], .error .notInPlaylist)
      | some i =>
        match pl.tracks[i]? with
        | none => (st, [], .error .keyError)
        | some track =>
          let st2 := setPlaylist st uid curr { pl with tracks := pl.tracks.eraseIdx i }
          let (st3, calls, r) := refresh_cover render st2 uid pl.name
          (st3, calls, r.map (fun _ => track))

/-- Embeds search_tracks_by_title: ensure the user, collect the artists of the
current playlist, and delegate to search_by_title_ranked. -/
def search_tracks_by_title (cat : List Track) (spotify : Option (String → String → Nat))
    (st : SState) (uid title : String) (limit : Nat) :
    SState × Except PyErr (List Track) :=
  let st := ensure_user st uid
  match currentEntry st uid with
  | none => (st, .error .keyError)
  | some (_, pl) =>
    let existing_artists := pl.tracks.map (fun t => t.artist)
    (st, .ok (search_by_title_ranked cat spotify existing_artists title limit))

/-! ### musiccrs.py: the dispatcher and the pending-disambiguation machine

`receive_utterance` is embedded for the utterance shapes the claims exercise:
numeric replies while a selection is pending, the `/add` family, and `/view`.
The commands whose behaviour no claim touches (`/info`, `/ask`, `/stats`,
`/play`, `/preview`, `/remove`, ...) are matched in their source order but
mapped to the opaque `Response.unmodeled`; no theorem below feeds them.
The single session key of musiccrs.py is the constant `"default"`. -/

/-- The `'type'` discriminant of `_pending_disambiguation`. -/
inductive DType where
  | add
  | qa
deriving DecidableEq, Repr

/-- The `question_type` values answer_from_selection distinguishes. -/
inductive QuestionType where
  | track_album
  | track_info
  | track_exists
  | other
deriving DecidableEq, Repr

/-- The `_pending_disambiguation` dict: discriminant, full (uncapped) candidate
list, and the `question_type` context entry when the QA path stored one. -/
structure Pending where
  dtype : DType
  options : List Track
  questionType : Option QuestionType
deriving DecidableEq, Repr

/-- The MusicCRS agent state touched by the embedded commands. -/
structure AgentState where
  ps : SState
  pending : Option Pending
deriving DecidableEq, Repr

/-- The structured content of the agent's reply messages. -/
inductive Response where
  | added (artist title : String)
  | viewList (name : String) (tracks : List Track)
  | viewEmpty (name : String)
  | noPending
  | invalidChoice (n : Nat)
  | disambiguate (total : Nat) (shown : List Track) (title : String)
  | noTracksFoundTitle (title : String)
  | qaAnswer (text : String)
  | errorMsg (e : PyErr)
  | unmodeled
deriving DecidableEq, Repr

/-- Embeds QASystem.answer_from_selection (qa_system.py): format the answer for
the selected track from the stored question type. -/
def answer_from_selection (question_type : QuestionType) (t : Track) : String :=
  match question_type with
  | .track_album =>
    match t.album with
    | some album =>
      "<b>" ++ t.title ++ "</b> by <b>" ++ t.artist ++ "</b> is on the album <b>" ++ album ++ "</b>."
    | none =>
      "<b>" ++ t.title ++ "</b> by <b>" ++ t.artist ++
        "</b> is in the database, but no album information is available."
  | .track_info =>
    match t.album with
    | some album =>
      "<b>" ++ t.title ++ "</b> is a song by <b>" ++ t.artist ++ "</b> from the album <b>" ++
        album ++ "</b>."
    | none =>
      "<b>" ++ t.title ++ "</b> is a song by <b>" ++ t.artist ++
        "</b>. No album information is available."
  | .track_exists =>
    "Yes, I have <b>" ++ t.title ++ "</b> by <b>" ++ t.artist ++ "</b> in the database."
  | .other => "I am not sure how to answer that question."

/-- Embeds _handle_disambiguation_selection: no pending state reports
NoPendingSelection; an out-of-range choice reports the error and returns with
the pending selection still stored (the code returns before the clearing
assignment); an in-range choice clears the pending selection and dispatches on
the stored kind, catching any exception of the continuation. -/
def handle_disambiguation_selection (cat : List Track)
    (render : String → Playlist → Except PyErr String) (st : AgentState) (choice : Nat) :
    AgentState × Response :=
  match st.pending with
  | none => (st, .noPending)
  | some p =>
    if h : choice < 1 ∨ p.options.length < choice then
      (st, .invalidChoice p.options.length)
    else
      let selected := p.options.get ⟨choice - 1, by omega⟩
      let st' : AgentState := { st with pending := none }
      match p.dtype with
      | .qa => (st', .qaAnswer (answer_from_selection (p.questionType.getD .track_info) selected))
      | .add =>
        let (ps', _calls, r) := add_by_uri cat render st'.ps "default" selected.track_uri
        match r with
        | .ok track => ({ st' with ps := ps' }, .added track.artist track.title)
        | .error e => ({ st' with ps := ps' }, .errorMsg e)

/-- The title-only fallback (Pattern 4) of the `/add` handler: search, then
report no match, add the unique match, or store a pending add-selection and
prompt with the first 10 candidates out of the reported total. -/
def handle_add_title_only (cat : List Track) (spotify : Option (String → String → Nat))
    (render : String → Playlist → Except PyErr String) (st : AgentState) (title : String) :
    AgentState × Response :=
  let (ps', r) := search_tracks_by_title cat spotify st.ps "default" title 20
  match r with
  | .error e => ({ st with ps := ps' }, .errorMsg e)
  | .ok results =>
    match results with
    | [] => ({ st with ps := ps' }, .noTracksFoundTitle title)
    | [t] =>
      let (ps2, _calls, r2) := add_by_uri cat render ps' "default" t.track_uri
      match r2 with
      | .ok track => ({ st with ps := ps2 }, .added track.artist track.title)
      | .error e => ({ st with ps := ps2 }, .errorMsg e)
    | _ =>
      ({ st with ps := ps', pending := some ⟨.add, results, none⟩ },
        .disambiguate results.length (results.take 10) title)

/-- Embeds the enhanced `/add` handler (musiccrs.py, receive_utterance): detect
the `artist: title`, `title by artist` and `artist - title` shapes in that
order, else fall back to a title-only search.  When an artist and a title are
both parsed the original code first runs `from .playlist_db import get_track`,
but playlist_db defines no `get_track` (only get_track_by_uri / get_track_info):
the import raises ImportError before any catalog lookup, and the dispatcher's
`except` turns it into an error reply. -/
def handle_add (cat : List Track) (spotify : Option (String → String → Nat))
    (render : String → Playlist → Except PyErr String) (st : AgentState) (text : String) :
    AgentState × Response :=
  let query := pyStrip ⟨text.data.drop 5⟩
  let artistTitle : Option (String × String) :=
    if hasSub [':'] query.data then
      match splitAtFirst ':' query.data with
      | some (pre, post) => some (pyStrip ⟨pre⟩, pyStrip ⟨post⟩)
      | none => none
    else if hasSub " by ".data (pyLower query).data then
      match idxOfSub " by ".data (pyLower query).data with
      | some idx => some (pyStrip ⟨query.data.drop (idx + 4)⟩, pyStrip ⟨query.data.take idx⟩)
      | none => none
    else if hasSub " - ".data query.data then
      match idxOfSub " - ".data query.data with
      | some idx => some (pyStrip ⟨query.data.take idx⟩, pyStrip ⟨query.data.drop (idx + 3)⟩)
      | none => none
    else none
  match artistTitle with
  | some (artist, title) =>
    if artist.data.isEmpty || title.data.isEmpty then
      handle_add_title_only cat spotify render st query
    else
      (st, .errorMsg .importGetTrack)
  | none => handle_add_title_only cat spotify render st query

/-- Checks `s.startsWith pre`. -/
def startsWithB (s pre : String) : Bool := beginsWith pre.data s.data

/-- Embeds receive_utterance for the claim-relevant utterances, keeping the
source's dispatch order: strip, drop empty input, route all-digit input to the
selection handler when a selection is pending, then match the commands in
order.  Commands no claim touches answer `Response.unmodeled`. -/
def receive_utterance (cat : List Track) (spotify : Option (String → String → Nat))
    (render : String → Playlist → Except PyErr String) (st : AgentState)
    (utterance : String) : AgentState × Option Response :=
  let text := pyStrip utterance
  if text.data.isEmpty then (st, none)
  else if st.pending.isSome && isDigits text then
    let (st', resp) := handle_disambiguation_selection cat render st (strToNat text)
    (st', some resp)
  else if startsWithB text "/info" then (st, some .unmodeled)
  else if startsWithB text "/ask_llm " then (st, some .unmodeled)
  else if startsWithB text "/options" then (st, some .unmodeled)
  else if text == "/quit" then (st, some .unmodeled)
  else if startsWithB (pyLower text) "/ask " then (st, some .unmodeled)
  else if pyLower text == "/stats" then (st, some .unmodeled)
  else if pyLower text == "/play" || startsWithB (pyLower text) "/play " then (st, some .unmodeled)
  else if startsWithB (pyLower text) "/preview " then (st, some .unmodeled)
  else if startsWithB text "/add " then
    let (st', resp) := handle_add cat spotify render st text
    (st', some resp)
  else if startsWithB (pyLower text) "/remove " then (st, some .unmodeled)
  else if pyLower text == "/view" then
    let ps1 := ensure_user st.ps "default"
    match currentEntry ps1 "default" with
    | none => ({ st with ps := ps1 }, some (.errorMsg .keyError))
    | some (_, pl) =>
      if pl.tracks.isEmpty then ({ st with ps := ps1 }, some (.viewEmpty pl.name))
      else ({ st with ps := ps1 }, some (.viewList pl.name pl.tracks))
  else (st, some .unmodeled)

/-! ### Concrete fixtures used by the witnesses and counterexamples -/

/-- A catalog row with full metadata. -/
def tBeatles : Track := ⟨"t1", "The Beatles", "Hey Jude", some "Past Masters"⟩

/-- A longer-titled variant of the same song. -/
def tLive : Track := ⟨"t2", "The Beatles", "Hey Jude - Live", none⟩

/-- Two-row catalog for the title-search scenario. -/
def cat2 : List Track := [tBeatles, tLive]

/-- A cover renderer that always succeeds. -/
def renderOk : String → Playlist → Except PyErr String := fun _ _ => .ok "cover"

/-- A cover renderer that always raises. -/
def renderBoom : String → Playlist → Except PyErr String :=
  fun _ _ => .error (.renderFail "cover failure")

/-- The agent state at process start. -/
def st0 : AgentState := ⟨⟨[], []⟩, none⟩

/-- A pending answer-question selection over the two-row catalog. -/
def pendingQA : Pending := ⟨.qa, [tBeatles, tLive], some .track_album⟩

/-- Fresh agent state with the answer-question selection pending. -/
def stP : AgentState := ⟨⟨[], []⟩, some pendingQA⟩

/-- Catalog of 21 distinct tracks sharing the title "song". -/
def cat21 : List Track :=
  (List.range 21).map (fun i => ⟨"u" ++ toString i, "artist" ++ toString i, "song", none⟩)

/-- Candidate with lowercase artist name. -/
def tLowerA : Track := ⟨"u1", "a", "T", none⟩

/-- Candidate with uppercase artist name, lexicographically smaller than "a". -/
def tUpperB : Track := ⟨"u2", "B", "T", none⟩

/-- Two-candidate catalog for the ranking tie-break scenario. -/
def catAB : List Track := [tLowerA, tUpperB]

/-- One occurrence of a track inside a source-corpus playlist slice. -/
def occTrack : Track := ⟨"m1", "X", "S", none⟩

/-- A second corpus track, occurring once. -/
def occTrackB : Track := ⟨"m2", "Y", "R", none⟩

/-- Service state of a seen user whose current playlist already holds t1. -/
def stDup : SState :=
  ⟨[("u", [("default", ⟨"default", [tBeatles], some "cover"⟩)])], [("u", "default")]⟩

/-- Service state of a seen user with an empty default playlist. -/
def stU0 : SState := ⟨[("u", [("default", ⟨"default", [], none⟩)])], [("u", "default")]⟩

/-! ## Helper lemmas -/

theorem alookup_aset {α : Type} (l : List (String × α)) (k : String) (v : α) :
    alookup (aset l k v) k = some v := by
  induction l with
  | nil => simp [aset, alookup, List.find?]
  | cons p l ih =>
    by_cases h : p.1 == k
    · simp [aset, h, alookup, List.find?]
    · simpa [aset, h, alookup, List.find?] using ih

theorem ensure_user_present (st : SState) (uid : String)
    (h : (alookup st.by_user uid).isSome) : ensure_user st uid = st := by
  simp [ensure_user, h]

theorem beginsWith_refl (l : List Char) : beginsWith l l = true := by
  induction l with
  | nil => rfl
  | cons c cs ih => simp [beginsWith, ih]

theorem exact_imp_titleMatch {q : String} {t : Track} (h : exactTitleMatch q t = true) :
    titleMatch q t = true := by
  have he : pyLower t.title = q := by simpa [exactTitleMatch] using h
  simp [titleMatch, he, beginsWith_refl]

theorem prefix_imp_titleMatch {q : String} {t : Track} (h : prefixTitleMatch q t = true) :
    titleMatch q t = true := by
  simp only [prefixTitleMatch, Bool.and_eq_true] at h
  simpa [titleMatch] using h.1

theorem exact_not_prefixMatch {q : String} {t : Track} (h : exactTitleMatch q t = true) :
    prefixTitleMatch q t = false := by
  have he : pyLower t.title = q := by simpa [exactTitleMatch] using h
  simp [prefixTitleMatch, he]

theorem none_match {q : String} {t : Track} (h1 : exactTitleMatch q t = false)
    (h2 : prefixTitleMatch q t = false) : titleMatch q t = false := by
  cases hb : titleMatch q t with
  | false => rfl
  | true =>
    exfalso
    have hne : (pyLower t.title != q) = true := by
      simp only [exactTitleMatch] at h1
      simp [bne, h1]
    have : prefixTitleMatch q t = true := by
      simp only [prefixTitleMatch, Bool.and_eq_true]
      exact ⟨by simpa [titleMatch] using hb, hne⟩
    simp [this] at h2

theorem matchCount_split (cat : List Track) (q : String) :
    (cat.filter (exactTitleMatch q)).length + (cat.filter (prefixTitleMatch q)).length =
      matchCount cat q := by
  induction cat with
  | nil => rfl
  | cons t ts ih =>
    simp only [matchCount, List.filter] at ih ⊢
    cases h1 : exactTitleMatch q t with
    | true =>
      rw [exact_not_prefixMatch h1, exact_imp_titleMatch h1]
      simp only [List.length_cons]
      omega
    | false =>
      cases h2 : prefixTitleMatch q t with
      | true =>
        rw [prefix_imp_titleMatch h2]
        simp only [List.length_cons]
        omega
      | false => rw [none_match h1 h2]; simpa using ih

theorem sbtAnnotated_length (cat : List Track) (q : String) :
    (sbtAnnotated cat q).length = matchCount cat q := by
  simp [sbtAnnotated, ← matchCount_split cat q]

theorem mem_sbtAnnotated {cat : List Track} {q : String} {x : Track × Nat} :
    x ∈ sbtAnnotated cat q ↔
      x.1 ∈ cat ∧ ((exactTitleMatch q x.1 = true ∧ x.2 = 0) ∨
        (prefixTitleMatch q x.1 = true ∧ x.2 = 1)) := by
  obtain ⟨t, p⟩ := x
  simp only [sbtAnnotated, List.mem_append, List.mem_map, List.mem_filter, Prod.mk.injEq]
  constructor
  · rintro (⟨a, ⟨ha, he⟩, rfl, rfl⟩ | ⟨a, ⟨ha, he⟩, rfl, rfl⟩)
    · exact ⟨ha, Or.inl ⟨he, rfl⟩⟩
    · exact ⟨ha, Or.inr ⟨he, rfl⟩⟩
  · rintro ⟨ha, (⟨he, rfl⟩ | ⟨he, rfl⟩)⟩
    · exact Or.inl ⟨t, ⟨ha, he⟩, rfl, rfl⟩
    · exact Or.inr ⟨t, ⟨ha, he⟩, rfl, rfl⟩

theorem sbtAnnotated_snd {cat : List Track} {q : String} {x : Track × Nat}
    (hx : x ∈ sbtAnnotated cat q) : x.2 = titlePriority q x.1 := by
  rcases mem_sbtAnnotated.mp hx with ⟨-, (⟨he, h0⟩ | ⟨he, h1⟩)⟩
  · simp only [titlePriority]
    rw [h0, if_pos (by simpa [exactTitleMatch] using he)]
  · have hne : (pyLower x.1.title == q) = false := by
      rcases Bool.eq_false_or_eq_true (pyLower x.1.title == q) with h | h
      · exact absurd (exact_not_prefixMatch (show exactTitleMatch q x.1 = true from h))
          (by simp [he])
      · exact h
    simp only [titlePriority]
    rw [h1, if_neg (by simp [hne])]

theorem search_by_title_eq (cat : List Track) (title : String) (limit : Nat)
    (hq : (pyLower (pyStrip title)).data.isEmpty = false) :
    search_by_title cat title limit =
      (((sbtAnnotated cat (pyLower (pyStrip title))).insertionSort sbtLe).take limit).map
        Prod.fst := by
  simp [search_by_title, hq]

theorem length_search_by_title (cat : List Track) (title : String) (limit : Nat)
    (hq : (pyLower (pyStrip title)).data.isEmpty = false) :
    (search_by_title cat title limit).length =
      min limit (matchCount cat (pyLower (pyStrip title))) := by
  rw [search_by_title_eq cat title limit hq]
  simp [List.length_take, List.length_insertionSort, sbtAnnotated_length]

/-! ## C7 -/

/-- C7: for a normalized nonempty query matched by at most `limit` catalog
rows, search_by_title returns exactly the rows whose lowercased title equals
or strictly starts with the query, ordered with all exact matches before all
prefix matches and, within equal priority, shorter titles first. -/
theorem C7_search_by_title_complete_and_ordered (cat : List Track) (title q : String)
    (limit : Nat) (hqdef : q = pyLower (pyStrip title)) (hq : q.data.isEmpty = false)
    (hcount : matchCount cat q ≤ limit) :
    (∀ t : Track, t ∈ search_by_title cat title limit ↔ t ∈ cat ∧ titleMatch q t = true) ∧
      (search_by_title cat title limit).Pairwise (fun a b =>
        titlePriority q a < titlePriority q b ∨
          (titlePriority q a = titlePriority q b ∧ a.title.length ≤ b.title.length)) := by
  subst hqdef
  set q := pyLower (pyStrip title) with hqd
  have hlen : ((sbtAnnotated cat q).insertionSort sbtLe).length ≤ limit := by
    rw [List.length_insertionSort, sbtAnnotated_length]; exact hcount
  have e1 : search_by_title cat title limit =
      ((sbtAnnotated cat q).insertionSort sbtLe).map Prod.fst := by
    rw [search_by_title_eq cat title limit hq, List.take_of_length_le hlen]
  constructor
  · intro t
    rw [e1]
    simp only [List.mem_map, List.mem_insertionSort]
    constructor
    · rintro ⟨x, hx, rfl⟩
      rcases mem_sbtAnnotated.mp hx with ⟨hmem, (⟨he, -⟩ | ⟨he, -⟩)⟩
      · exact ⟨hmem, exact_imp_titleMatch he⟩
      · exact ⟨hmem, prefix_imp_titleMatch he⟩
    · rintro ⟨hmem, hmatch⟩
      rcases Bool.eq_false_or_eq_true (exactTitleMatch q t) with he | he
      · exact ⟨(t, 0), mem_sbtAnnotated.mpr ⟨hmem, Or.inl ⟨he, rfl⟩⟩, rfl⟩
      · have hp : prefixTitleMatch q t = true := by
          rcases Bool.eq_false_or_eq_true (prefixTitleMatch q t) with hp | hp
          · exact hp
          · exact absurd hmatch (by simp [none_match he hp])
        exact ⟨(t, 1), mem_sbtAnnotated.mpr ⟨hmem, Or.inr ⟨hp, rfl⟩⟩, rfl⟩
  · rw [e1, List.pairwise_map]
    have hs : ((sbtAnnotated cat q).insertionSort sbtLe).Pairwise sbtLe :=
      List.sorted_insertionSort sbtLe (sbtAnnotated cat q)
    refine hs.imp_of_mem ?_
    intro a b ha hb hab
    have ha2 : a.2 = titlePriority q a.1 :=
      sbtAnnotated_snd ((List.mem_insertionSort sbtLe).mp ha)
    have hb2 : b.2 = titlePriority q b.1 :=
      sbtAnnotated_snd ((List.mem_insertionSort sbtLe).mp hb)
    have hkey : a.2 < b.2 ∨ a.2 = b.2 ∧ a.1.title.length ≤ b.1.title.length :=
      (Prod.Lex.le_iff (a.2, a.1.title.length) (b.2, b.1.title.length)).mp hab
    rw [ha2, hb2] at hkey
    exact hkey

/-! ## C5 -/

/-- Strings with equal character lists are equal. -/
theorem strEqOfData {a b : String} (h : a.data = b.data) : a = b := by
  cases a; cases b; exact congrArg String.mk h

/-- C5 (amended): the ranked title search output is sorted by the key
`(priority, -popularity, lowercased artist, title)`; in particular any two
entries with equal priority and equal combined popularity appear with the
LOWERCASED-lexicographically smaller artist first, and with equal lowercased
artist the smaller raw title first. -/
theorem C5_rankedResults_tie_break (cat : List Track)
    (spotify : Option (String → String → Nat)) (existing_artists : List String)
    (title : String) (limit : Nat) :
    (rankedResults cat spotify existing_artists title limit).Pairwise (fun x y =>
      rank_priority (existing_artists.map pyLower) x.1 =
          rank_priority (existing_artists.map pyLower) y.1 →
        x.2 = y.2 →
        strLt (pyLower x.1.artist) (pyLower y.1.artist) ∨
          (pyLower x.1.artist = pyLower y.1.artist ∧ strLe x.1.title y.1.title)) := by
  have hs : (rankedResults cat spotify existing_artists title limit).Pairwise
      (rankLe (existing_artists.map pyLower)) :=
    List.sorted_insertionSort (rankLe (existing_artists.map pyLower))
      (finalScored cat spotify title limit)
  refine hs.imp ?_
  intro a b hab hprio hpop
  set ex := existing_artists.map pyLower with hex
  have hab' : toLex (rank_priority ex a.1,
        toLex (-(a.2 : Int), toLex ((pyLower a.1.artist).data, a.1.title.data))) ≤
      toLex (rank_priority ex b.1,
        toLex (-(b.2 : Int), toLex ((pyLower b.1.artist).data, b.1.title.data))) := hab
  rcases (Prod.Lex.le_iff _ _).mp hab' with h1 | ⟨-, hrest⟩
  · rw [hprio] at h1
    exact absurd h1 (lt_irrefl _)
  · rcases (Prod.Lex.le_iff _ _).mp hrest with h2 | ⟨-, hrest2⟩
    · rw [hpop] at h2
      exact absurd h2 (lt_irrefl _)
    · rcases (Prod.Lex.le_iff _ _).mp hrest2 with h3 | ⟨heq3, h4⟩
      · exact Or.inl h3
      · exact Or.inr ⟨strEqOfData heq3, h4⟩

/-- Counterexample for C5 as literally stated: with equal priority and equal
combined popularity, the candidate whose RAW artist name "B" is
lexicographically smaller than "a" nevertheless sorts second, because the code
compares lowercased artist names. -/
theorem C5_counterexample :
    search_by_title_ranked catAB none [] "t" 20 = [tLowerA, tUpperB] ∧
      strLt tUpperB.artist tLowerA.artist ∧
      rank_priority [] tLowerA = rank_priority [] tUpperB ∧
      finalScored catAB none "t" 20 = [(tLowerA, 10), (tUpperB, 10)] :=
  ⟨by decide, by decide, rfl, by decide⟩

/-! ## C2 and C3 -/

theorem handle_selection_out_of_range (cat : List Track)
    (render : String → Playlist → Except PyErr String) (st : AgentState) (p : Pending)
    (choice : Nat) (hp : st.pending = some p)
    (hr : choice < 1 ∨ p.options.length < choice) :
    handle_disambiguation_selection cat render st choice =
      (st, .invalidChoice p.options.length) := by
  obtain ⟨ps, pend⟩ := st
  have hp' : pend = some p := hp
  subst hp'
  simp only [handle_disambiguation_selection]
  rw [dif_pos hr]

theorem handle_selection_qa (cat : List Track)
    (render : String → Playlist → Except PyErr String) (st : AgentState)
    (options : List Track) (qt : Option QuestionType) (choice : Nat)
    (hp : st.pending = some ⟨.qa, options, qt⟩)
    (h1 : 1 ≤ choice) (h2 : choice ≤ options.length) :
    handle_disambiguation_selection cat render st choice =
      ({ st with pending := none },
        .qaAnswer (answer_from_selection (qt.getD .track_info)
          (options.get ⟨choice - 1, by omega⟩))) := by
  obtain ⟨ps, pend⟩ := st
  have hp' : pend = some ⟨.qa, options, qt⟩ := hp
  subst hp'
  simp only [handle_disambiguation_selection]
  rw [dif_neg (by omega)]

theorem isDigits_not_empty {d : String} (h : isDigits d = true) : d.data.isEmpty = false := by
  unfold isDigits at h
  rcases (Bool.and_eq_true _ _).mp h with ⟨h1, -⟩
  simpa using h1

/-- C3 (amended): an out-of-range numeric reply (0, or above the candidate
count) produces the out-of-range error message and leaves the agent state
COMPLETELY unchanged: the pending selection stays stored (the machine remains
awaiting a selection) and nothing is consumed as a mutation. -/
theorem C3_out_of_range_keeps_pending (cat : List Track)
    (spotify : Option (String → String → Nat))
    (render : String → Playlist → Except PyErr String) (st : AgentState) (p : Pending)
    (d : String) (hp : st.pending = some p) (hd : pyStrip d = d)
    (hdig : isDigits d = true)
    (hrange : strToNat d = 0 ∨ p.options.length < strToNat d) :
    receive_utterance cat spotify render st d =
      (st, some (.invalidChoice p.options.length)) := by
  have hne : d.data.isEmpty = false := isDigits_not_empty hdig
  have hsel := handle_selection_out_of_range cat render st p (strToNat d) hp
    (by rcases hrange with h | h
        · omega
        · omega)
  simp [receive_utterance, hd, hne, hp, hdig, hsel]

/-- Counterexample for C3 as stated: with a two-candidate pending selection,
the replies "0" and "3" both report the out-of-range error but the pending
selection is NOT cleared (the state is returned unchanged, still holding it),
so the machine is not left in Idle. -/
theorem C3_counterexample :
    receive_utterance cat2 none renderOk stP "0" = (stP, some (.invalidChoice 2)) ∧
      receive_utterance cat2 none renderOk stP "3" = (stP, some (.invalidChoice 2)) ∧
      stP.pending = some pendingQA ∧ pendingQA.options.length = 2 :=
  ⟨by decide, by decide, rfl, rfl⟩

/-- Witness for C3 at the two-candidate pending state and reply "0". -/
theorem C3_witness :
    receive_utterance cat2 none renderOk stP "0" = (stP, some (.invalidChoice 2)) := by
  have h := C3_out_of_range_keeps_pending cat2 none renderOk stP pendingQA "0" rfl rfl
    (by decide) (Or.inl (by decide))
  exact h

/-- C2 (amended): with an answer-question selection pending, a non-numeric
command such as `/view` executes normally and leaves the pending selection in
place (it is neither consumed nor abandoned); a subsequent utterance of digits
is then routed to the selection handler and applied to the OLD candidate list,
answering from the stored question type instead of reporting
NoPendingSelection. -/
theorem C2_view_keeps_pending (cat : List Track)
    (spotify : Option (String → String → Nat))
    (render : String → Playlist → Except PyErr String) (st : AgentState)
    (options : List Track) (qt : Option QuestionType) (curr : String) (pl : Playlist)
    (d : String) (hp : st.pending = some ⟨.qa, options, qt⟩)
    (hview : currentEntry (ensure_user st.ps "default") "default" = some (curr, pl))
    (hd : pyStrip d = d) (hdig : isDigits d = true)
    (h1 : 1 ≤ strToNat d) (h2 : strToNat d ≤ options.length) :
    receive_utterance cat spotify render st "/view" =
        ({ st with ps := ensure_user st.ps "default" },
          some (if pl.tracks.isEmpty then Response.viewEmpty pl.name
            else Response.viewList pl.name pl.tracks)) ∧
      ({ st with ps := ensure_user st.ps "default" } : AgentState).pending =
        some ⟨.qa, options, qt⟩ ∧
      receive_utterance cat spotify render { st with ps := ensure_user st.ps "default" } d =
        ({ st with ps := ensure_user st.ps "default", pending := none },
          some (.qaAnswer (answer_from_selection (qt.getD .track_info)
            (options.get ⟨strToNat d - 1, by omega⟩)))) := by
  refine ⟨?_, by simpa using hp, ?_⟩
  · have hnd : isDigits "/view" = false := by decide
    by_cases hemp : pl.tracks.isEmpty <;>
      simp [receive_utterance, hnd, hview, hemp, pyStrip, pyLower, startsWithB, beginsWith,
        isDigits]
  · have hne : d.data.isEmpty = false := isDigits_not_empty hdig
    have hsel := handle_selection_qa cat render
      { st with ps := ensure_user st.ps "default" } options qt (strToNat d)
      (by simpa using hp) h1 h2
    rw [hp] at hsel
    simp [receive_utterance, hd, hne, hdig, hp, hsel]

/-- Counterexample for C2 as stated: after `/view` the pending answer-question
selection is still stored (not abandoned), and the subsequent bare number "1"
is answered from the old candidate list instead of NoPendingSelection. -/
theorem C2_counterexample :
    receive_utterance cat2 none renderOk stP "/view" =
        ({ stP with ps := ensure_user stP.ps "default" }, some (.viewEmpty "default")) ∧
      ({ stP with ps := ensure_user stP.ps "default" } : AgentState).pending = some pendingQA ∧
      (receive_utterance cat2 none renderOk
          { stP with ps := ensure_user stP.ps "default" } "1").2 =
        some (.qaAnswer (answer_from_selection .track_album tBeatles)) ∧
      some (Response.qaAnswer (answer_from_selection .track_album tBeatles)) ≠
        some Response.noPending :=
  ⟨by decide, by decide, by decide, by decide⟩

/-- Witness for C2 at the concrete pending state and the follow-up reply "1". -/
theorem C2_witness :
    receive_utterance cat2 none renderOk stP "/view" =
        ({ stP with ps := ensure_user stP.ps "default" }, some (.viewEmpty "default")) ∧
      ({ stP with ps := ensure_user stP.ps "default" } : AgentState).pending = some pendingQA ∧
      receive_utterance cat2 none renderOk { stP with ps := ensure_user stP.ps "default" } "1" =
        ({ stP with ps := ensure_user stP.ps "default", pending := none },
          some (.qaAnswer (answer_from_selection .track_album tBeatles))) := by
  have h := C2_view_keeps_pending cat2 none renderOk stP [tBeatles, tLive]
    (some .track_album) "default" ⟨"default", [], none⟩ "1" rfl rfl rfl (by decide)
    (by decide) (by decide)
  refine ⟨?_, h.2.1, ?_⟩
  · simpa using h.1
  · simpa using h.2.2

/-! ## C4 -/

theorem length_rankedResults (cat : List Track) (spotify : Option (String → String → Nat))
    (existing_artists : List String) (title : String) (limit : Nat) :
    (rankedResults cat spotify existing_artists title limit).length =
      (search_by_title cat title (min (limit * 3) 60)).length := by
  simp [rankedResults, finalScored, List.length_insertionSort]

theorem length_search_by_title_ranked (cat : List Track)
    (spotify : Option (String → String → Nat)) (existing : List String) (title : String)
    (hq : (pyLower (pyStrip title)).data.isEmpty = false) :
    (search_by_title_ranked cat spotify existing title 20).length =
      min 20 (matchCount cat (pyLower (pyStrip title))) := by
  have h60 : (search_by_title cat title (min (20 * 3) 60)).length =
      min 60 (matchCount cat (pyLower (pyStrip title))) := by
    simpa using length_search_by_title cat title (min (20 * 3) 60) hq
  unfold search_by_title_ranked
  by_cases he : (search_by_title cat title (min (20 * 3) 60)).isEmpty
  · rw [if_pos he]
    have h0 : (search_by_title cat title (min (20 * 3) 60)).length = 0 := by
      cases hsearch : search_by_title cat title (min (20 * 3) 60) with
      | nil => rfl
      | cons a l => rw [hsearch] at he; simp at he
    rw [h0] at h60
    simp only [List.length_nil]
    omega
  · rw [if_neg he]
    simp only [List.length_map, List.length_take, length_rankedResults]
    rw [h60]
    omega

/-- C4 (amended): when the title-only add path finds at least two candidates,
the prompt displays at most the first 10 of them but reports as total the
LENGTH OF THE RANKED SEARCH RESULT, which the search itself caps at 20: the
reported total is `min 20 M`, equal to the true match count `M` only when
`M ≤ 20`. -/
theorem C4_reported_total_is_capped (cat : List Track)
    (spotify : Option (String → String → Nat))
    (render : String → Playlist → Except PyErr String) (st : AgentState)
    (title curr : String) (pl : Playlist)
    (hcur : currentEntry (ensure_user st.ps "default") "default" = some (curr, pl))
    (hq : (pyLower (pyStrip title)).data.isEmpty = false)
    (h2 : 2 ≤ min 20 (matchCount cat (pyLower (pyStrip title)))) :
    handle_add_title_only cat spotify render st title =
      ({ st with
          ps := ensure_user st.ps "default",
          pending := some ⟨.add,
            search_by_title_ranked cat spotify (pl.tracks.map (fun t => t.artist)) title 20,
            none⟩ },
        .disambiguate
          (search_by_title_ranked cat spotify (pl.tracks.map (fun t => t.artist)) title 20).length
          ((search_by_title_ranked cat spotify
            (pl.tracks.map (fun t => t.artist)) title 20).take 10)
          title) ∧
      (search_by_title_ranked cat spotify (pl.tracks.map (fun t => t.artist)) title 20).length =
        min 20 (matchCount cat (pyLower (pyStrip title))) := by
  have hlen : (search_by_title_ranked cat spotify
      (pl.tracks.map (fun t => t.artist)) title 20).length =
      min 20 (matchCount cat (pyLower (pyStrip title))) :=
    length_search_by_title_ranked cat spotify (pl.tracks.map (fun t => t.artist)) title hq
  refine ⟨?_, hlen⟩
  have hge : 2 ≤ (search_by_title_ranked cat spotify
      (pl.tracks.map (fun t => t.artist)) title 20).length := by omega
  obtain ⟨a, b, rest, hres⟩ : ∃ a b rest,
      search_by_title_ranked cat spotify (pl.tracks.map (fun t => t.artist)) title 20 =
        a :: b :: rest := by
    cases hr : search_by_title_ranked cat spotify (pl.tracks.map (fun t => t.artist)) title 20 with
    | nil => rw [hr] at hge; simp at hge
    | cons a t =>
      cases t with
      | nil => rw [hr] at hge; simp at hge
      | cons b rest => exact ⟨a, b, rest, rfl⟩
  simp only [handle_add_title_only, search_tracks_by_title, hcur, hres]

/-- Counterexample for C4 as stated: a catalog with 21 tracks titled "song"
matches the query 21 times, but the prompt reports a total of 20 (the ranked
search truncates at its 20-row limit before the count is taken). -/
theorem C4_counterexample :
    (receive_utterance cat21 none renderOk st0 "/add song").2 =
        some (.disambiguate 20 ((search_by_title_ranked cat21 none [] "song" 20).take 10) "song") ∧
      matchCount cat21 (pyLower (pyStrip "song")) = 21 ∧ (20 : Nat) ≠ 21 :=
  ⟨by decide, by decide, by decide⟩

/-- Witness for C4 at the 21-track catalog: the reported total is
`min 20 21 = 20`. -/
theorem C4_witness :
    handle_add_title_only cat21 none renderOk st0 "song" =
      ({ st0 with
          ps := ensure_user st0.ps "default",
          pending := some ⟨.add, search_by_title_ranked cat21 none [] "song" 20, none⟩ },
        .disambiguate (search_by_title_ranked cat21 none [] "song" 20).length
          ((search_by_title_ranked cat21 none [] "song" 20).take 10) "song") ∧
      (search_by_title_ranked cat21 none [] "song" 20).length =
        min 20 (matchCount cat21 (pyLower (pyStrip "song"))) := by
  have h := C4_reported_total_is_capped cat21 none renderOk st0 "song" "default"
    ⟨"default", [], none⟩ (by decide) (by decide) (by decide)
  simpa using h

/-- Witness for C7 at the catalog of the spec scenario: querying "hey jude"
returns both "Hey Jude" and "Hey Jude - Live", the exact match first. -/
theorem C7_witness :
    (tBeatles ∈ search_by_title cat2 "hey jude" 20 ∧
        tLive ∈ search_by_title cat2 "hey jude" 20) ∧
      search_by_title cat2 "hey jude" 20 = [tBeatles, tLive] := by
  have h := C7_search_by_title_complete_and_ordered cat2 "hey jude"
    (pyLower (pyStrip "hey jude")) 20 rfl (by decide) (by decide)
  refine ⟨⟨?_, ?_⟩, by decide⟩
  · exact (h.1 tBeatles).mpr (by decide)
  · exact (h.1 tLive).mpr (by decide)

/-! ## C1 -/

/-- C1 (code bug): the catalog holds the exact row for "The Beatles: Hey Jude"
and the exact-match lookup finds it, yet the colon-form add command answers an
error, because the handler's `from .playlist_db import get_track` names a
function playlist_db does not define and raises ImportError before any lookup
runs. -/
theorem C1_exact_add_raises_import_error :
    receive_utterance cat2 none renderOk st0 "/add The Beatles: Hey Jude" =
        (st0, some (.errorMsg .importGetTrack)) ∧
      search_by_artist_title cat2 "The Beatles" "Hey Jude" = some tBeatles :=
  ⟨by decide, by decide⟩

/-! ## C6 -/

/-- C6 (code bug): get_track_popularity counts rows of the `tracks` table, but
the build step inserts with INSERT OR IGNORE into a table whose PRIMARY KEY is
the track uri, so every stored track counts exactly 1 no matter how often it
occurred in the source corpus: uris occurring 2 and 1 times both report 1. -/
theorem C6_popularity_ignores_corpus_multiplicity :
    get_track_popularity (buildCatalog [occTrack, occTrack, occTrackB]) "m1" = 1 ∧
      get_track_popularity (buildCatalog [occTrack, occTrack, occTrackB]) "m2" = 1 ∧
      corpusOccurrences [occTrack, occTrack, occTrackB] "m1" = 2 ∧
      corpusOccurrences [occTrack, occTrack, occTrackB] "m2" = 1 :=
  ⟨by decide, by decide, by decide, by decide⟩

/-! ## C8 -/

theorem refresh_cover_of_error (render : String → Playlist → Except PyErr String)
    (st : SState) (uid name : String) (pl : Playlist) (e : PyErr)
    (hlk : (alookup st.by_user uid).bind (fun pls => alookup pls name) = some pl)
    (hre : render uid pl = .error e) :
    refresh_cover render st uid name = (st, [(uid, name)], .error e) := by
  simp only [refresh_cover, hlk, hre]

theorem setPlaylist_lookup (st : SState) (uid curr : String) (pl' : Playlist)
    (pls : List (String × Playlist)) (hpresent : alookup st.by_user uid = some pls) :
    alookup (setPlaylist st uid curr pl').by_user uid = some (aset pls curr pl') := by
  simp [setPlaylist, hpresent, alookup_aset]

/-- C8 (amended): the mutation layer does not absorb cover-renderer failures.
refresh_cover has no handler, so a renderer exception propagates unchanged to
the mutation's caller; for add_by_uri the track append performed before the
refresh persists in the returned state, but the operation reports the
renderer's error instead of the added track. -/
theorem C8_renderer_error_propagates (render : String → Playlist → Except PyErr String)
    (e : PyErr) (hre : ∀ uid pl, render uid pl = .error e) :
    (∀ (st : SState) (uid name : String) (pl : Playlist),
        (alookup st.by_user uid).bind (fun pls => alookup pls name) = some pl →
          refresh_cover render st uid name = (st, [(uid, name)], .error e)) ∧
      ∀ (cat : List Track) (st : SState) (uid uri curr : String)
        (pls : List (String × Playlist)) (pl : Playlist) (track : Track),
        get_track_by_uri cat uri = some track →
        alookup (ensure_user st uid).current uid = some curr →
        alookup (ensure_user st uid).by_user uid = some pls →
        alookup pls curr = some pl →
        pl.name = curr →
        pl.tracks.any (fun x => x.track_uri == uri) = false →
        add_by_uri cat render st uid uri =
            (setPlaylist (ensure_user st uid) uid curr
                { pl with tracks := pl.tracks ++ [track] },
              [(uid, curr)], .error e) ∧
          (alookup (setPlaylist (ensure_user st uid) uid curr
                { pl with tracks := pl.tracks ++ [track] }).by_user uid).bind
              (fun pls2 => alookup pls2 curr) =
            some { pl with tracks := pl.tracks ++ [track] } := by
  constructor
  · intro st uid name pl hlk
    exact refresh_cover_of_error render st uid name pl e hlk (hre uid pl)
  · intro cat st uid uri curr pls pl track htrack hcurr hby hpl hname hdup
    obtain ⟨pname, ptracks, pcover⟩ := pl
    have hname' : pname = curr := hname
    subst hname'
    have hce : currentEntry (ensure_user st uid) uid =
        some (pname, ⟨pname, ptracks, pcover⟩) := by
      simp [currentEntry, hcurr, hby, hpl]
    have hlk2 : (alookup (setPlaylist (ensure_user st uid) uid pname
          ⟨pname, ptracks ++ [track], pcover⟩).by_user uid).bind
        (fun pls2 => alookup pls2 pname) = some ⟨pname, ptracks ++ [track], pcover⟩ := by
      rw [setPlaylist_lookup (ensure_user st uid) uid pname _ pls hby]
      simp [alookup_aset]
    refine ⟨?_, hlk2⟩
    have hrc := refresh_cover_of_error render
      (setPlaylist (ensure_user st uid) uid pname ⟨pname, ptracks ++ [track], pcover⟩)
      uid pname ⟨pname, ptracks ++ [track], pcover⟩ e hlk2
      (hre uid ⟨pname, ptracks ++ [track], pcover⟩)
    simp only [add_by_uri, htrack, hce, hdup, hrc, Bool.false_eq_true, if_false, Except.map]

/-- Counterexample for C8 as stated: with an always-raising renderer, the add
mutation itself succeeds in mutating the playlist (the track is present in the
resulting state) but the renderer's exception propagates to the caller as the
operation's error result instead of being absorbed. -/
theorem C8_counterexample :
    (add_by_uri cat2 renderBoom ⟨[], []⟩ "u" "t1").2.2 =
        .error (.renderFail "cover failure") ∧
      ((currentEntry (add_by_uri cat2 renderBoom ⟨[], []⟩ "u" "t1").1 "u").map
          (fun x => x.2.tracks)) = some [tBeatles] :=
  ⟨rfl, rfl⟩

/-- Witness for C8: the amended propagation fact at a concrete state. -/
theorem C8_witness :
    add_by_uri cat2 renderBoom ⟨[], []⟩ "u" "t1" =
      (setPlaylist (ensure_user ⟨[], []⟩ "u") "u" "default" ⟨"default", [tBeatles], none⟩,
        [("u", "default")], .error (.renderFail "cover failure")) := by
  have h := (C8_renderer_error_propagates renderBoom (.renderFail "cover failure")
      (fun _ _ => rfl)).2 cat2 ⟨[], []⟩ "u" "t1" "default"
      [("default", ⟨"default", [], none⟩)] ⟨"default", [], none⟩ tBeatles
      rfl rfl rfl rfl rfl rfl
  simpa using h.1

/-! ## C9 and C10 -/

theorem aset_aset {α : Type} (l : List (String × α)) (k : String) (v v' : α) :
    aset (aset l k v) k v' = aset l k v' := by
  induction l with
  | nil => simp [aset]
  | cons p l ih =>
    by_cases h : p.1 == k
    · simp [aset, h]
    · simp [aset, h, ih]

theorem setPlaylist_setPlaylist (st : SState) (uid n : String) (pl1 pl2 : Playlist)
    (pls : List (String × Playlist)) (hpresent : alookup st.by_user uid = some pls) :
    setPlaylist (setPlaylist st uid n pl1) uid n pl2 = setPlaylist st uid n pl2 := by
  simp [setPlaylist, hpresent, alookup_aset, aset_aset]

/-- C10: a duplicate add is a complete no-op: when the uri is already present
in the current playlist, add_by_uri returns the track without touching any
part of the state and without invoking the cover renderer (empty call list). -/
theorem C10_duplicate_add_is_noop (cat : List Track)
    (render : String → Playlist → Except PyErr String) (st : SState)
    (uid uri curr : String) (pls : List (String × Playlist)) (pl : Playlist) (track : Track)
    (hpresent : alookup st.by_user uid = some pls)
    (hcurr : alookup st.current uid = some curr)
    (hpl : alookup pls curr = some pl)
    (htrack : get_track_by_uri cat uri = some track)
    (hdup : pl.tracks.any (fun x => x.track_uri == uri) = true) :
    add_by_uri cat render st uid uri = (st, [], .ok track) := by
  have heu : ensure_user st uid = st := ensure_user_present st uid (by simp [hpresent])
  have hce : currentEntry st uid = some (curr, pl) := by
    simp [currentEntry, hcurr, hpresent, hpl]
  simp [add_by_uri, heu, htrack, hce, hdup]

/-- Witness for C10: adding t1 to a playlist already holding t1 returns the
track, changes nothing, and performs no renderer call. -/
theorem C10_witness :
    add_by_uri cat2 renderOk stDup "u" "t1" = (stDup, [], .ok tBeatles) :=
  C10_duplicate_add_is_noop cat2 renderOk stDup "u" "t1" "default"
    [("default", ⟨"default", [tBeatles], some "cover"⟩)]
    ⟨"default", [tBeatles], some "cover"⟩ tBeatles rfl rfl rfl rfl (by decide)

/-- C9: adding the same resolved track twice is idempotent: after two
add_by_uri calls with the same uri (starting from a current playlist without
it) the playlist holds exactly one entry with that identifier, and the second
call still reports the track as its successful result. -/
theorem C9_add_by_uri_idempotent (cat : List Track)
    (render : String → Playlist → Except PyErr String) (st : SState)
    (uid uri curr : String) (pls : List (String × Playlist)) (pl : Playlist) (track : Track)
    (hpresent : alookup st.by_user uid = some pls)
    (hcurr : alookup st.current uid = some curr)
    (hpl : alookup pls curr = some pl)
    (hname : pl.name = curr)
    (htrack : get_track_by_uri cat uri = some track)
    (hnew : pl.tracks.countP (fun t => t.track_uri == uri) = 0) :
    (add_by_uri cat render (add_by_uri cat render st uid uri).1 uid uri).2.2 = .ok track ∧
      ∃ pl2, currentEntry
          (add_by_uri cat render (add_by_uri cat render st uid uri).1 uid uri).1 uid =
            some (curr, pl2) ∧
        pl2.tracks.countP (fun t => t.track_uri == uri) = 1 := by
  obtain ⟨pname, ptracks, pcover⟩ := pl
  have hname' : pname = curr := hname
  subst hname'
  have heu : ensure_user st uid = st := ensure_user_present st uid (by simp [hpresent])
  have hce : currentEntry st uid = some (pname, ⟨pname, ptracks, pcover⟩) := by
    simp [currentEntry, hcurr, hpresent, hpl]
  have htu : track.track_uri = uri := by
    simpa using List.find?_some (show cat.find? (fun t => t.track_uri == uri) = some track
      from htrack)
  have hdupF : ptracks.any (fun x => x.track_uri == uri) = false := by
    rw [List.any_eq_false]
    exact List.countP_eq_zero.mp hnew
  have hlk2 : (alookup (setPlaylist st uid pname
        ⟨pname, ptracks ++ [track], pcover⟩).by_user uid).bind
      (fun pls2 => alookup pls2 pname) = some ⟨pname, ptracks ++ [track], pcover⟩ := by
    rw [setPlaylist_lookup st uid pname _ pls hpresent]
    simp [alookup_aset]
  have key1 : ∃ pl2 : Playlist, pl2.tracks = ptracks ++ [track] ∧
      (add_by_uri cat render st uid uri).1 = setPlaylist st uid pname pl2 := by
    cases hr : render uid ⟨pname, ptracks ++ [track], pcover⟩ with
    | error e' =>
      have hrc := refresh_cover_of_error render
        (setPlaylist st uid pname ⟨pname, ptracks ++ [track], pcover⟩)
        uid pname ⟨pname, ptracks ++ [track], pcover⟩ e' hlk2 hr
      refine ⟨⟨pname, ptracks ++ [track], pcover⟩, rfl, ?_⟩
      simp only [add_by_uri, heu, htrack, hce, hdupF, hrc, Bool.false_eq_true, if_false]
    | ok url =>
      have hrc : refresh_cover render
          (setPlaylist st uid pname ⟨pname, ptracks ++ [track], pcover⟩) uid pname =
          (setPlaylist (setPlaylist st uid pname ⟨pname, ptracks ++ [track], pcover⟩)
              uid pname ⟨pname, ptracks ++ [track], some url⟩,
            [(uid, pname)], .ok ()) := by
        simp only [refresh_cover, hlk2, hr]
      refine ⟨⟨pname, ptracks ++ [track], some url⟩, rfl, ?_⟩
      simp only [add_by_uri, heu, htrack, hce, hdupF, hrc, Bool.false_eq_true, if_false,
        setPlaylist_setPlaylist st uid pname _ _ pls hpresent]
  obtain ⟨pl2, hpl2, hst1⟩ := key1
  have hby1 : alookup (setPlaylist st uid pname pl2).by_user uid =
      some (aset pls pname pl2) := setPlaylist_lookup st uid pname pl2 pls hpresent
  have heu1 : ensure_user (setPlaylist st uid pname pl2) uid = setPlaylist st uid pname pl2 :=
    ensure_user_present _ _ (by simp [hby1])
  have hcur1 : alookup (setPlaylist st uid pname pl2).current uid = some pname := by
    simpa [setPlaylist] using hcurr
  have hce1 : currentEntry (setPlaylist st uid pname pl2) uid = some (pname, pl2) := by
    simp [currentEntry, hcur1, hby1, alookup_aset]
  have hdup1 : pl2.tracks.any (fun x => x.track_uri == uri) = true := by
    rw [hpl2, List.any_append]
    simp [htu]
  rw [hst1]
  simp only [add_by_uri, heu1, htrack, hce1, hdup1, if_true]
  refine ⟨trivial, pl2, rfl, ?_⟩
  rw [hpl2, List.countP_append]
  simp [hnew, htu]

/-- Witness for C9: two successive adds of t1 to an empty default playlist end
with exactly one copy of t1 and a successful second result. -/
theorem C9_witness :
    (add_by_uri cat2 renderOk (add_by_uri cat2 renderOk stU0 "u" "t1").1 "u" "t1").2.2 =
        .ok tBeatles ∧
      ∃ pl2, currentEntry
          (add_by_uri cat2 renderOk (add_by_uri cat2 renderOk stU0 "u" "t1").1 "u" "t1").1 "u" =
            some ("default", pl2) ∧
        pl2.tracks.countP (fun t => t.track_uri == "t1") = 1 :=
  C9_add_by_uri_idempotent cat2 renderOk stU0 "u" "t1" "default"
    [("default", ⟨"default", [], none⟩)] ⟨"default", [], none⟩ tBeatles
    rfl rfl rfl rfl rfl rfl

end MusicCRS
